import Mathlib

/-
Verification of the weather-flight join pipeline.

Shallow embedding conventions:
  - Python exceptions are modelled with `Except PyError`; a bare `except:`
    handler corresponds to matching on `.error _`.
  - `arrow.Arrow` values are modelled by `ArrowT`: `wall` is the wall-clock
    reading in minutes (as shown in the value own timezone), `tzOffset` is the
    timezone offset from UTC in minutes (east positive), so the absolute
    instant is `wall - tzOffset`.  A naive `arrow.get` produces `tzOffset = 0`.
  - Python list indexing (negative wrap-around, IndexError) is `pyGet`.
  - Attribute accesses that the source classes do not define (`oneWe.date`,
    `OneFlight.port`, `int.all`) are functions returning
    `.error .attributeError`, because that is what CPython raises there.
-/

namespace WeatherFlight

inductive PyError where
  | indexError
  | attributeError
  | typeError
  | valueError
  | keyError
  | loopLimit
deriving DecidableEq, Repr

/-- Model of `arrow.Arrow`: wall-clock minutes plus timezone offset (minutes
east of UTC).  The absolute instant is `wall - tzOffset`. -/
structure ArrowT where
  wall : Int
  tzOffset : Int
deriving DecidableEq, Repr

/-- The absolute UTC instant of an arrow value, in minutes. -/
def instant (t : ArrowT) : Int := t.wall - t.tzOffset

/-- `t.time().hour * 60 + t.time().minute`: minute-of-day of the wall clock. -/
def minuteOfDay (t : ArrowT) : Int := t.wall % 1440

/-- `t.date().day`: the calendar day ordinal of the wall clock (the model
counts days from the epoch instead of day-of-month; the claims under study
never cross a month boundary). -/
def dayOf (t : ArrowT) : Int := t.wall.fdiv 1440

/-- `t.shift(days=n)`: arrow keeps the timezone and moves the wall clock. -/
def shiftDays (t : ArrowT) (n : Int) : ArrowT := ⟨t.wall + 1440 * n, t.tzOffset⟩

/-- `t.to('UTC')`: re-express the same instant in UTC. -/
def toUTCArrow (t : ArrowT) : ArrowT := ⟨instant t, 0⟩

/-- Model of `oneWe` (BWWu.py) and `WeatherObservation` (models.py): both
define exactly a station code, a parsed timestamp and the raw row (`all` in
BWWu.py, `raw_data` in models.py). -/
structure WeatherObservation where
  station : String
  time : ArrowT
  all : List String
deriving DecidableEq, Repr

/-- Default observation used only as the `List.getD` fallback in statements
whose indices are already known to be in range. -/
def dObs : WeatherObservation := ⟨"", ⟨0, 0⟩, []⟩

/-- Model of `WeData` (BWWu.py) and `WeatherData` (models.py): the observation
list plus the time index. -/
structure WeatherData where
  data : List WeatherObservation
  time_index : List Nat
deriving DecidableEq, Repr

/-- Python list indexing `xs[i]`: one negative wrap-around, IndexError when
out of range. -/
def pyGet {α : Type} (xs : List α) (i : Int) : Except PyError α :=
  let j : Int := if i < 0 then i + (xs.length : Int) else i
  if j < 0 then .error .indexError
  else
    match xs[j.toNat]? with
    | some v => .ok v
    | none => .error .indexError

/-- The attribute access `obs.date()` in `recurData` (BWWu.py line 51).
`oneWe` defines only `all`, `station` and `time` (BWWu.py lines 13-17), so
this access raises AttributeError in the source. -/
def dateAttr (_ : WeatherObservation) : Except PyError Int := .error .attributeError

/-- The `while` loop of `recurData` (BWWu.py lines 51-54): starting at
`index`, keep scanning while `allWe[index].date().day == allWe[index-1].date().day`,
returning `allWe[index]` when its station matches.  `fuel` bounds the loop (a
`loopLimit` error stands for non-termination; the loop in fact stops at its
first condition evaluation, see `scanLoop_error`). -/
def scanLoop (allWe : List WeatherObservation) (place : String) :
    Nat → Int → Except PyError (Option WeatherObservation)
  | 0, _ => .error .loopLimit
  | fuel + 1, index =>
    match pyGet allWe index with
    | .error e => .error e
    | .ok cur =>
      match dateAttr cur with
      | .error e => .error e
      | .ok dc =>
        match pyGet allWe (index - 1) with
        | .error e => .error e
        | .ok prev =>
          match dateAttr prev with
          | .error e => .error e
          | .ok dp =>
            if dc = dp then
              if cur.station = place then .ok (some cur)
              else scanLoop allWe place fuel (index + 1)
            else .ok none

/-- `recurData(min, allWe, timeIndex, offset, place)` (BWWu.py lines 48-63).
The `try` block looks up `timeIndex[min]` and runs the scan; any exception is
caught by the bare `except:` which returns 0 (modelled `.ok none`).  When the
scan falls through without a match, the source widens: it flips `offset` and
then evaluates `recurData(min + offset, allWe, timeIndex, place)` — four
arguments for a five-parameter function, which raises TypeError at the call
site, hence the `.error .typeError` in that branch. -/
def recurData (mn : Int) (allWe : List WeatherObservation) (timeIndex : List Nat)
    (offset : Int) (place : String) : Except PyError (Option WeatherObservation) :=
  match (match pyGet timeIndex mn with
         | .error e => (.error e : Except PyError (Option WeatherObservation))
         | .ok start => scanLoop allWe place (allWe.length + 1) (start : Int)) with
  | .ok (some obs) => .ok (some obs)
  | .error _ => .ok none
  | .ok none =>
    if mn = 0 then .ok none
    else
      -- let offset := if offset > 0 then -offset else -offset + 1 (unused: the
      -- recursive call raises TypeError before the body could run)
      .error .typeError

/-- `findData(place, inTime, allWe, timeIndex)` (BWWu.py lines 43-45). -/
def findData (place : String) (inTime : ArrowT) (allWe : List WeatherObservation)
    (timeIndex : List Nat) : Except PyError (Option WeatherObservation) :=
  recurData (minuteOfDay inTime) allWe timeIndex 0 place

/-- The indexing loop of `process_weather_file` (data_processor.py lines
126-137): iterate the parsed observations keeping `current_time`; whenever the
current observation time differs, append the running position `i` to
`time_index`.  `cur = none` models the initial `current_time = None`.  Arrow
equality compares instants. -/
def buildIndex : List WeatherObservation → Option ArrowT → Nat → List Nat
  | [], _, _ => []
  | o :: rest, none, i => i :: buildIndex rest (some o.time) (i + 1)
  | o :: rest, some c, i =>
    if instant c = instant o.time then buildIndex rest (some o.time) (i + 1)
    else i :: buildIndex rest (some o.time) (i + 1)

/-- `DataProcessor.process_weather_file` (data_processor.py lines 119-139)
after the out-of-scope CSV layer: from the parsed observation rows (the file
content after the fixed 6-line header) it returns the observation list
together with `time_index = [0]` extended by the positions appended by the
loop. -/
def process_weather_file (rows : List WeatherObservation) : WeatherData :=
  ⟨rows, 0 :: buildIndex rows none 0⟩

/-- The wall-clock instant of the element *before* position `k` when the
scan of a run-start characterisation carries the previous time `p`. -/
def prevInstant (p : ArrowT) (rest : List WeatherObservation) : Nat → Int
  | 0 => instant p
  | k + 1 => instant ((rest.getD k dObs).time)

/-- Membership lookup in the loaded airport-timezone table
(`_load_timezone_data` builds a dict code -> zone; only key membership and the
mapped value matter here). -/
def lookupTZ (tbl : List (String × String)) (a : String) : Option String :=
  (tbl.find? (fun p => p.fst == a)).map Prod.snd

/-- `DataProcessor.convert_to_utc` (data_processor.py lines 80-99): raise
ValueError when the airport is absent from the table; otherwise bind the zone
`_tz` (which the source never uses again) and return `time.to('UTC')`. -/
def convert_to_utc (tbl : List (String × String)) (airport : String)
    (time : ArrowT) : Except PyError ArrowT :=
  match lookupTZ tbl airport with
  | none => .error .valueError
  | some _tz => .ok (toUTCArrow time)

/-- Modelled from the spec: the Timezone Resolver contract, "maps an airport
code to a UTC offset/zone; used to normalize every timestamp" — the code that
would realise it (using the looked-up zone to reinterpret the wall time before
converting, as in `ret.replace(tzinfo=tz); ret.to('utc')` of the scratch
`toUTC`) is not reachable anywhere in src, so the intended conversion is
reconstructed here: `tzSem` gives each zone identifier its UTC offset in
minutes east. -/
def convert_to_utc_spec (tzSem : String → Int) (tbl : List (String × String))
    (airport : String) (time : ArrowT) : Except PyError ArrowT :=
  match lookupTZ tbl airport with
  | none => .error .valueError
  | some tz => .ok (toUTCArrow ⟨time.wall, tzSem tz⟩)

/-- Model of `Diver` (BWWu.py lines 121-126): a diversion leg with its
airport, arrival and departure. -/
structure Diver where
  port : String
  arr : ArrowT
  dep : ArrowT
deriving DecidableEq, Repr

/-- Model of `OneFlight` (BWWu.py lines 108-118). -/
structure OneFlight where
  orig : String
  dest : String
  depT : ArrowT
  arrT : ArrowT
  all : List String
  numDiv : Nat
  divs : List Diver
  useable : Bool
deriving DecidableEq, Repr

/-- The attribute access `flight.port` in the main loop (BWWu.py lines 377 and
381): `OneFlight` defines no attribute `port`, so the access raises
AttributeError. -/
def flightPort (_ : OneFlight) : Except PyError String := .error .attributeError

/-- The attribute access `x.all` on a `findData` result: an observation has
the attribute, while the NotFound result is the integer 0, which does not
(AttributeError). -/
def allAttr : Option WeatherObservation → Except PyError (List String)
  | some o => .ok o.all
  | none => .error .attributeError

/-- The diversion arrival lookup (BWWu.py lines 374-377): the tomorrow-day
branch queries `div.port`, the same-day branch queries `flight.port`. -/
def divArrLookup (flight : OneFlight) (div : Diver) (today : ArrowT)
    (todayW tomorrowW : WeatherData) : Except PyError (Option WeatherObservation) :=
  if dayOf div.arr ≠ dayOf today then
    findData div.port div.arr tomorrowW.data tomorrowW.time_index
  else
    match flightPort flight with
    | .error e => .error e
    | .ok p => findData p div.arr todayW.data todayW.time_index

/-- The diversion departure lookup (BWWu.py lines 378-381), same shape. -/
def divDepLookup (flight : OneFlight) (div : Diver) (today : ArrowT)
    (todayW tomorrowW : WeatherData) : Except PyError (Option WeatherObservation) :=
  if dayOf div.dep ≠ dayOf today then
    findData div.port div.dep tomorrowW.data tomorrowW.time_index
  else
    match flightPort flight with
    | .error e => .error e
    | .ok p => findData p div.dep todayW.data todayW.time_index

/-- The `while divloaded < flight.numDiv` loop (BWWu.py lines 372-383):
append both diversion weather rows to the accumulated output line; exceptions
propagate (the loop body is not guarded by any handler). -/
def divLoop (flight : OneFlight) (today : ArrowT) (todayW tomorrowW : WeatherData) :
    Nat → Nat → List String → Except PyError (List String)
  | 0, _, acc => .ok acc
  | remaining + 1, divloaded, acc =>
    match pyGet flight.divs (divloaded : Int) with
    | .error e => .error e
    | .ok div =>
      match divArrLookup flight div today todayW tomorrowW with
      | .error e => .error e
      | .ok divarrwe =>
        match divDepLookup flight div today todayW tomorrowW with
        | .error e => .error e
        | .ok divdepwe =>
          match allAttr divarrwe with
          | .error e => .error e
          | .ok a1 =>
            match allAttr divdepwe with
            | .error e => .error e
            | .ok a2 =>
              divLoop flight today todayW tomorrowW remaining (divloaded + 1)
                (acc ++ a1 ++ a2)

/-- One iteration of the output loop over flights (BWWu.py lines 352-385),
given the current snapshots: look up departure weather, arrival weather
(choosing the tomorrow snapshot when the arrival falls on a later calendar
day), skip the flight when either is 0 (`.ok none`: nothing written, continue
with the next flight), otherwise assemble the full output row and append the
diversion blocks.  `.ok (some line)` models `writer.writerow(fullLine)`;
`.error _` models an uncaught exception aborting the run. -/
def processFlight (flight : OneFlight) (today : ArrowT)
    (todayW tomorrowW : WeatherData) : Except PyError (Option (List String)) :=
  if flight.useable then
    match findData flight.orig flight.depT todayW.data todayW.time_index with
    | .error e => .error e
    | .ok depw =>
      match (if dayOf flight.arrT ≠ dayOf today then
               findData flight.dest flight.arrT tomorrowW.data tomorrowW.time_index
             else
               findData flight.dest flight.arrT todayW.data todayW.time_index) with
      | .error e => .error e
      | .ok arrw =>
        if depw = none ∨ arrw = none then .ok none
        else
          match allAttr depw with
          | .error e => .error e
          | .ok d =>
            match allAttr arrw with
            | .error e => .error e
            | .ok a =>
              match divLoop flight today todayW tomorrowW flight.numDiv 0
                  (flight.all ++ d ++ a) with
              | .error e => .error e
              | .ok fullLine => .ok (some fullLine)
  else .ok none

/-- Model of `Diversion` (models.py lines 82-98). -/
structure Diversion where
  airport : String
  arrival_time : ArrowT
  departure_time : ArrowT
deriving DecidableEq, Repr

/-- Model of `Flight` (models.py lines 100-127). -/
structure Flight where
  origin : String
  destination : String
  departure_time : ArrowT
  arrival_time : ArrowT
  raw_data : List String
  num_diversions : Nat
  diversions : List Diversion
  useable : Bool
deriving DecidableEq, Repr

/-- One diversion slot of a BTS row: `Div{i}Airport`, `Div{i}WheelsOn`,
`Div{i}WheelsOff`; `none` models a pandas NaN. -/
structure DivRow where
  airport : Option String
  wheelsOn : Option Nat
  wheelsOff : Option Nat
deriving DecidableEq, Repr

/-- The fields of a flight-data row that `_create_flight_from_row` and
`_process_diversions` read.  `FlightDate` is the wall-clock minute at which
the flight date starts.  A missing `Div{i}...` column (KeyError in the
source) is a slot absent from `divSlots`. -/
structure FlightRow where
  CRSDepTime : Nat
  CRSArrTime : Nat
  FlightDate : Int
  Origin : String
  Dest : String
  DivAirportLandings : Nat
  divSlots : List DivRow
  raw : List String
deriving DecidableEq, Repr

/-- `_format_time` followed by `arrow.get(f"{date}{hhmm}", 'YYYY-MM-DDHHmm')`
(data_processor.py lines 199-206, 230-247, 284-288): zero-pad the integer to
four digits and parse hour/minute; arrow raises (ValueError) unless the hour
is below 24 and the minute below 60 (a five-digit value also fails to parse,
and indeed has hour field at least 100).  Returns the minute-of-day. -/
def parse4 (t : Nat) : Except PyError Int :=
  if t / 100 < 24 ∧ t % 100 < 60 then .ok ((t / 100) * 60 + t % 100 : Nat)
  else .error .valueError

/-- The midnight-crossing adjustment `if arr < dep: arr = arr.shift(days=1)`
(data_processor.py lines 210-211 and 293-294); arrow comparison is by
instant. -/
def fixMidnight (dep arr : ArrowT) : ArrowT :=
  if instant arr < instant dep then shiftDays arr 1 else arr

/-- The body of one `_process_diversions` loop iteration (data_processor.py
lines 271-300): skip the slot (`none`) on a NaN field, an unparsable time, or
an unknown airport (the caught ValueError/KeyError `continue`); otherwise
build the `Diversion` with the midnight adjustment. -/
def processSlot (tbl : List (String × String)) (flightDate : Int)
    (slot : DivRow) : Option Diversion :=
  match slot.airport with
  | none => none
  | some airport =>
    match slot.wheelsOn with
    | none => none
    | some won =>
      match slot.wheelsOff with
      | none => none
      | some wof =>
        match parse4 won with
        | .error _ => none
        | .ok pa =>
          match parse4 wof with
          | .error _ => none
          | .ok pd =>
            match convert_to_utc tbl airport ⟨flightDate + pa, 0⟩ with
            | .error _ => none
            | .ok arr1 =>
              match convert_to_utc tbl airport ⟨flightDate + pd, 0⟩ with
              | .error _ => none
              | .ok dep => some ⟨airport, fixMidnight dep arr1, dep⟩

/-- `_process_diversions` (data_processor.py lines 249-302): iterate slots 1
to `min(num_divs, 5)`, keeping the successfully processed ones in order. -/
def process_diversions (tbl : List (String × String)) (row : FlightRow) :
    List Diversion :=
  (List.range (min row.DivAirportLandings 5)).filterMap fun i =>
    (row.divSlots[i]?).bind (processSlot tbl row.FlightDate)

/-- `_create_flight_from_row` (data_processor.py lines 178-228): parse and
convert the departure and arrival times (any ValueError/KeyError is caught
and yields `None`), apply the midnight adjustment to the arrival, process the
diversions, and build the `Flight`. -/
def create_flight_from_row (tbl : List (String × String)) (row : FlightRow) :
    Option Flight :=
  match parse4 row.CRSDepTime with
  | .error _ => none
  | .ok pd =>
    match convert_to_utc tbl row.Origin ⟨row.FlightDate + pd, 0⟩ with
    | .error _ => none
    | .ok dep =>
      match parse4 row.CRSArrTime with
      | .error _ => none
      | .ok pa =>
        match convert_to_utc tbl row.Dest ⟨row.FlightDate + pa, 0⟩ with
        | .error _ => none
        | .ok arr1 =>
          some ⟨row.Origin, row.Dest, dep, fixMidnight dep arr1, row.raw,
                row.DivAirportLandings, process_diversions tbl row, true⟩

/-- A concrete observation: station AAA reporting at wall minute 9 (00:09). -/
def obsA : WeatherObservation := ⟨"AAA", ⟨9, 0⟩, ["AAA", "2021-06-01 00:09"]⟩

/-- A concrete one-observation day. -/
def obsSample : List WeatherObservation := [obsA]

/-- A one-row timezone table mapping JFK to the America/New_York zone. -/
def tblNY : List (String × String) := [("JFK", "America/New_York")]

/-- Zone semantics for the purposes of `tblNY` in June: America/New_York
observes UTC-4, an offset of -240 minutes. -/
def nyJune : String → Int := fun _ => -240

/-- An empty-day weather snapshot (no observations, the builder initial
index). -/
def wdEmpty : WeatherData := ⟨[], [0]⟩

/-- A diversion whose arrival (wall minute 100) falls on calendar day 0. -/
def divToday : Diver := ⟨"DDD", ⟨100, 0⟩, ⟨50, 0⟩⟩

/-- A diversion whose arrival (wall minute 1500) falls on calendar day 1. -/
def divNext : Diver := ⟨"DDD", ⟨1500, 0⟩, ⟨1460, 0⟩⟩

/-- A concrete flight carrying `divToday` as its single diversion. -/
def flightD : OneFlight :=
  ⟨"AAA", "BBB", ⟨600, 0⟩, ⟨700, 0⟩, [], 1, [divToday], true⟩

/-- A today reference instant on calendar day 0. -/
def todayA : ArrowT := ⟨600, 0⟩

/-- A timezone table for the witness flight row. -/
def tblW : List (String × String) := [("AAA", "UTC"), ("BBB", "UTC"), ("CCC", "UTC")]

/-- A concrete flight row: departure 23:30, scheduled arrival 00:15 (crossing
midnight), one diversion with wheels-on 00:30 and wheels-off 01:00 (its
arrival parses before its departure, so it is shifted forward a day). -/
def rowW : FlightRow :=
  ⟨2330, 15, 0, "AAA", "BBB", 1, [⟨some "CCC", some 30, some 100⟩], []⟩

/-- The diversion `_process_diversions` produces from `rowW`. -/
def divW : Diversion := ⟨"CCC", ⟨1470, 0⟩, ⟨60, 0⟩⟩

/-- The flight `_create_flight_from_row` produces from `rowW`. -/
def flW : Flight :=
  ⟨"AAA", "BBB", ⟨1410, 0⟩, ⟨1455, 0⟩, [], 1, [divW], true⟩

theorem scanLoop_error (allWe : List WeatherObservation) (place : String)
    (fuel : Nat) (index : Int) :
    ∃ e, scanLoop allWe place fuel index = Except.error e := by
  cases fuel with
  | zero => exact ⟨PyError.loopLimit, rfl⟩
  | succ n =>
    cases h : pyGet allWe index with
    | error e => exact ⟨e, by simp [scanLoop, h]⟩
    | ok cur => exact ⟨PyError.attributeError, by simp [scanLoop, h, dateAttr]⟩

theorem recurData_eq (mn : Int) (allWe : List WeatherObservation)
    (timeIndex : List Nat) (offset : Int) (place : String) :
    recurData mn allWe timeIndex offset place = Except.ok none := by
  unfold recurData
  cases h : pyGet timeIndex mn with
  | error e => simp [h]
  | ok start =>
    obtain ⟨e, he⟩ := scanLoop_error allWe place (allWe.length + 1) (start : Int)
    simp [h, he]

theorem findData_eq (place : String) (inTime : ArrowT)
    (allWe : List WeatherObservation) (timeIndex : List Nat) :
    findData place inTime allWe timeIndex = Except.ok none :=
  recurData_eq _ _ _ _ _

/-- Claim C1: for every station `s`, instant `t`, and weather data, the
nearest-observation lookup `findData` either reports NotFound or returns an
observation whose station equals `s` and whose time is at-or-before `t`; it
never returns an observation whose time is strictly after `t`.  (It holds
because the bucket scan always raises AttributeError — `oneWe` has no `date`
attribute — which the bare `except:` turns into NotFound, so the lookup never
returns an observation at all.) -/
theorem findData_at_or_before (s : String) (t : ArrowT)
    (allWe : List WeatherObservation) (timeIndex : List Nat) :
    findData s t allWe timeIndex = Except.ok none ∨
      ∃ o, findData s t allWe timeIndex = Except.ok (some o) ∧
        o.station = s ∧ instant o.time ≤ instant t :=
  Or.inl (findData_eq s t allWe timeIndex)

/-- Claim C5: the nearest-observation search always terminates with a result
value — an observation or NotFound — and never raises an exception; in
particular no negative minute is ever probed (no widening takes place at all:
every invocation returns NotFound from the exception handler of the bucket
scan). -/
theorem findData_total (s : String) (t : ArrowT)
    (allWe : List WeatherObservation) (timeIndex : List Nat) :
    ∃ r, findData s t allWe timeIndex = Except.ok r :=
  ⟨none, findData_eq s t allWe timeIndex⟩

/-- Claim C4 (code evaluated at the failing input): with a single observation
for station AAA at minute 9 of the day, looking AAA up at minute 10 returns
NotFound.  The claimed alternating widening (-1, +1, -2, +2, …) would probe
minute 9 first and find the observation; the code instead returns 0 from the
bare `except:` before any widening (and the widening call itself passes four
arguments to the five-parameter `recurData`). -/
theorem findData_no_widening :
    obsA ∈ (process_weather_file obsSample).data ∧
    obsA.station = "AAA" ∧
    minuteOfDay obsA.time = 9 ∧
    findData "AAA" ⟨10, 0⟩ (process_weather_file obsSample).data
      (process_weather_file obsSample).time_index = Except.ok none := by
  refine ⟨?_, rfl, rfl, ?_⟩
  · simp [process_weather_file, obsSample]
  · rfl

/-- Claim C6: a flight one of whose required weather lookups yields NotFound
is absent from the output (no partial row is written) and processing
continues.  Proved in the strongest form: since every lookup yields NotFound
here, every flight is skipped with nothing written and no exception — the
`depw == 0 or arrw == 0` check always fires before the (crash-prone)
diversion block. -/
theorem processFlight_skips (flight : OneFlight) (today : ArrowT)
    (todayW tomorrowW : WeatherData) :
    processFlight flight today todayW tomorrowW = Except.ok none := by
  unfold processFlight
  split
  · simp [findData_eq, ite_self]
  · rfl

/-- Claim C7 (code evaluated at the failing input): for a diversion whose
arrival falls on the same calendar day as the today snapshot, the lookup
evaluates `flight.port` — an attribute `OneFlight` does not define — and
raises AttributeError instead of querying the diversion airport; on the
tomorrow-day path the lookup does query the diversion airport `div.port`. -/
theorem divArrLookup_today_attr_error :
    divArrLookup flightD divToday todayA wdEmpty wdEmpty =
      Except.error PyError.attributeError ∧
    divArrLookup flightD divNext todayA wdEmpty wdEmpty =
      findData "DDD" ⟨1500, 0⟩ wdEmpty.data wdEmpty.time_index :=
  ⟨rfl, rfl⟩

/-- Claim C3 (code evaluated at the failing input): converting the local wall
time 14:00 for JFK — mapped to America/New_York (UTC-4) — the code returns
the unchanged instant 14:00 UTC, while the resolver contract of the spec
yields 18:00 UTC; the looked-up zone never influences the result. -/
theorem convert_to_utc_ignores_zone :
    convert_to_utc tblNY "JFK" ⟨840, 0⟩ = Except.ok ⟨840, 0⟩ ∧
    convert_to_utc_spec nyJune tblNY "JFK" ⟨840, 0⟩ = Except.ok ⟨1080, 0⟩ :=
  ⟨rfl, rfl⟩

/-- Claim C8: `convert_to_utc` fails (with the ValueError standing for
UnknownAirport) exactly when the airport code is absent from the loaded
timezone table, and for a present code it returns normally (with the
`time.to('UTC')` value). -/
theorem convert_to_utc_error_iff_absent (tbl : List (String × String))
    (a : String) (t : ArrowT) :
    (convert_to_utc tbl a t = Except.error PyError.valueError ↔
      lookupTZ tbl a = none) ∧
    (convert_to_utc tbl a t = Except.error PyError.valueError ∨
      convert_to_utc tbl a t = Except.ok (toUTCArrow t)) := by
  cases h : lookupTZ tbl a <;> simp [convert_to_utc, h]

/-- Claim C9 (counterexample): on an input with no observation records the
builder does not return an empty `time_index` — it returns the initial
`[0]`. -/
theorem empty_input_time_index_ne_nil :
    (process_weather_file ([] : List WeatherObservation)).data = [] ∧
    (process_weather_file ([] : List WeatherObservation)).time_index ≠ [] :=
  ⟨rfl, by decide⟩

/-- Claim C9 (amended): the builder applied to an input with no observation
records returns the empty observation list together with `time_index = [0]`,
the single initial entry. -/
theorem empty_input_builder_result :
    process_weather_file ([] : List WeatherObservation) =
      ⟨[], [0]⟩ := rfl

/-- Claim C2 (counterexample): for a concrete non-empty day (one observation)
the built `time_index` does not have 1440 entries — it has 2. -/
theorem time_index_length_ne_1440 :
    obsSample ≠ [] ∧
    (process_weather_file obsSample).time_index.length ≠ 1440 :=
  ⟨by decide, by decide⟩

theorem prevInstant_getD (o : WeatherObservation) (rest : List WeatherObservation)
    (k : Nat) :
    instant (((o :: rest).getD k dObs).time) = prevInstant o.time rest k := by
  cases k with
  | zero => simp [prevInstant]
  | succ k => simp [prevInstant]

theorem mem_buildIndex (rest : List WeatherObservation) :
    ∀ (p : ArrowT) (i j : Nat),
      (j ∈ buildIndex rest (some p) i ↔
        ∃ k, k < rest.length ∧ j = i + k ∧
          instant ((rest.getD k dObs).time) ≠ prevInstant p rest k) := by
  induction rest with
  | nil =>
    intro p i j
    simp [buildIndex]
  | cons o rest ih =>
    intro p i j
    by_cases hpo : instant p = instant o.time
    · have hb : buildIndex (o :: rest) (some p) i = buildIndex rest (some o.time) (i + 1) := by
        simp [buildIndex, hpo]
      rw [hb, ih o.time (i + 1) j]
      constructor
      · rintro ⟨k, hk, rfl, hne⟩
        refine ⟨k + 1, by simpa using Nat.succ_lt_succ hk, by omega, ?_⟩
        rw [List.getD_cons_succ]
        show instant ((rest.getD k dObs).time) ≠ instant (((o :: rest).getD k dObs).time)
        rw [prevInstant_getD]
        exact hne
      · rintro ⟨k, hk, hj, hne⟩
        cases k with
        | zero =>
          exfalso
          apply hne
          simp [prevInstant, ← hpo]
        | succ k =>
          refine ⟨k, by simpa using Nat.lt_of_succ_lt_succ hk, by omega, ?_⟩
          rw [List.getD_cons_succ] at hne
          have hne2 : instant ((rest.getD k dObs).time) ≠
              instant (((o :: rest).getD k dObs).time) := hne
          rw [prevInstant_getD] at hne2
          exact hne2
    · have hb : buildIndex (o :: rest) (some p) i =
          i :: buildIndex rest (some o.time) (i + 1) := by
        simp [buildIndex, hpo]
      rw [hb]
      simp only [List.mem_cons]
      rw [ih o.time (i + 1) j]
      constructor
      · rintro (rfl | ⟨k, hk, rfl, hne⟩)
        · refine ⟨0, by simp, by omega, ?_⟩
          simp only [List.getD_cons_zero, prevInstant]
          exact fun hh => hpo hh.symm
        · refine ⟨k + 1, by simpa using Nat.succ_lt_succ hk, by omega, ?_⟩
          rw [List.getD_cons_succ]
          show instant ((rest.getD k dObs).time) ≠ instant (((o :: rest).getD k dObs).time)
          rw [prevInstant_getD]
          exact hne
      · rintro ⟨k, hk, hj, hne⟩
        cases k with
        | zero => exact Or.inl (by omega)
        | succ k =>
          refine Or.inr ⟨k, by simpa using Nat.lt_of_succ_lt_succ hk, by omega, ?_⟩
          rw [List.getD_cons_succ] at hne
          have hne2 : instant ((rest.getD k dObs).time) ≠
              instant (((o :: rest).getD k dObs).time) := hne
          rw [prevInstant_getD] at hne2
          exact hne2

/-- Claim C2 (amended): for a non-empty day the built `time_index` starts with
the initial 0 and its remaining entries are exactly the run-start positions —
the positions `j` of observations that begin a new timestamp run (`j = 0` or a
time different from the previous observation) — and every entry is a valid
index into the observation list.  In particular it is indexed by run ordinal,
not by minute-of-day, and its length is one more than the number of runs
rather than 1440. -/
theorem time_index_run_starts (rows : List WeatherObservation) (h : rows ≠ []) :
    (process_weather_file rows).time_index.head? = some 0 ∧
    (∀ j : Nat, j ∈ (process_weather_file rows).time_index.tail ↔
        (j < rows.length ∧ (j = 0 ∨
          instant ((rows.getD j dObs).time) ≠
            instant ((rows.getD (j - 1) dObs).time)))) ∧
    (∀ x ∈ (process_weather_file rows).time_index, x < rows.length) := by
  match rows, h with
  | o :: rest, _ =>
    have hti : (process_weather_file (o :: rest)).time_index =
        0 :: (0 :: buildIndex rest (some o.time) 1) := by
      simp [process_weather_file, buildIndex]
    have hiff : ∀ j : Nat, j ∈ (process_weather_file (o :: rest)).time_index.tail ↔
        (j < (o :: rest).length ∧ (j = 0 ∨
          instant (((o :: rest).getD j dObs).time) ≠
            instant (((o :: rest).getD (j - 1) dObs).time))) := by
      intro j
      rw [hti]
      simp only [List.tail_cons, List.mem_cons]
      rw [mem_buildIndex rest o.time 1 j]
      constructor
      · rintro (rfl | ⟨k, hk, rfl, hne⟩)
        · exact ⟨by simp, Or.inl rfl⟩
        · refine ⟨by simp only [List.length_cons]; omega, Or.inr ?_⟩
          have h1 : (1 : Nat) + k - 1 = k := by omega
          have h2 : (1 : Nat) + k = k + 1 := by omega
          rw [h1, h2, List.getD_cons_succ, prevInstant_getD]
          exact hne
      · rintro ⟨hj, hj0 | hne⟩
        · exact Or.inl hj0
        · cases j with
          | zero => exact Or.inl rfl
          | succ k =>
            refine Or.inr ⟨k, by simpa using Nat.lt_of_succ_lt_succ hj, by omega, ?_⟩
            rw [List.getD_cons_succ] at hne
            have h1 : k + 1 - 1 = k := by omega
            rw [h1, prevInstant_getD] at hne
            exact hne
    refine ⟨by rw [hti]; rfl, hiff, ?_⟩
    intro x hx
    rw [hti] at hx
    rcases List.mem_cons.mp hx with rfl | hx'
    · simp
    · exact ((hiff x).mp (by rw [hti]; exact hx')).1

/-- Witness for `time_index_run_starts` at the concrete one-observation day. -/
theorem time_index_run_starts_witness :
    (process_weather_file obsSample).time_index.head? = some 0 ∧
    (∀ j : Nat, j ∈ (process_weather_file obsSample).time_index.tail ↔
        (j < obsSample.length ∧ (j = 0 ∨
          instant ((obsSample.getD j dObs).time) ≠
            instant ((obsSample.getD (j - 1) dObs).time)))) ∧
    (∀ x ∈ (process_weather_file obsSample).time_index, x < obsSample.length) :=
  time_index_run_starts obsSample (by decide)

theorem parse4_bounds (t : Nat) (m : Int) (h : parse4 t = Except.ok m) :
    0 ≤ m ∧ m ≤ 1439 := by
  unfold parse4 at h
  split at h
  · next hc =>
    obtain ⟨h1, h2⟩ := hc
    injection h with h
    omega
  · exact absurd h (by simp)

theorem convert_to_utc_ok (tbl : List (String × String)) (a : String)
    (t u : ArrowT) (h : convert_to_utc tbl a t = Except.ok u) :
    u = toUTCArrow t := by
  unfold convert_to_utc at h
  split at h
  · exact absurd h (by simp)
  · injection h with h
    exact h.symm

theorem instant_toUTCArrow (t : ArrowT) : instant (toUTCArrow t) = instant t := by
  simp [instant, toUTCArrow]

theorem fixMidnight_ge (dep arr : ArrowT) (h : instant dep - 1440 ≤ instant arr) :
    instant dep ≤ instant (fixMidnight dep arr) := by
  unfold fixMidnight
  split
  · next hlt => simp only [shiftDays, instant] at *; omega
  · next hge => omega

theorem processSlot_ge (tbl : List (String × String)) (fd : Int) (slot : DivRow)
    (d : Diversion) (h : processSlot tbl fd slot = some d) :
    instant d.departure_time ≤ instant d.arrival_time := by
  unfold processSlot at h
  split at h
  · exact absurd h (by simp)
  · split at h
    · exact absurd h (by simp)
    · split at h
      · exact absurd h (by simp)
      · split at h
        · exact absurd h (by simp)
        · next pa hpa =>
          split at h
          · exact absurd h (by simp)
          · next pd hpd =>
            split at h
            · exact absurd h (by simp)
            · next arr1 harr =>
              split at h
              · exact absurd h (by simp)
              · next dep hdep =>
                injection h with h
                subst h
                simp only
                have hb1 := parse4_bounds _ _ hpa
                have hb2 := parse4_bounds _ _ hpd
                have e1 := convert_to_utc_ok _ _ _ _ harr
                have e2 := convert_to_utc_ok _ _ _ _ hdep
                subst e1; subst e2
                apply fixMidnight_ge
                simp only [instant, toUTCArrow]
                omega

/-- Claim C10: every `Flight` returned by `_create_flight_from_row` has
`arrival_time >= departure_time` (an arrival parsed earlier than the
departure is shifted forward one day), and every `Diversion` produced by
`_process_diversions` satisfies the same inequality after the same midnight
adjustment. -/
theorem flight_arrival_ge_departure (tbl : List (String × String))
    (row : FlightRow) :
    (∀ f : Flight, create_flight_from_row tbl row = some f →
        instant f.departure_time ≤ instant f.arrival_time) ∧
    (∀ d : Diversion, d ∈ process_diversions tbl row →
        instant d.departure_time ≤ instant d.arrival_time) := by
  constructor
  · intro f hf
    unfold create_flight_from_row at hf
    split at hf
    · exact absurd hf (by simp)
    · next pd hpd =>
      split at hf
      · exact absurd hf (by simp)
      · next dep hdep =>
        split at hf
        · exact absurd hf (by simp)
        · next pa hpa =>
          split at hf
          · exact absurd hf (by simp)
          · next arr1 harr =>
            injection hf with hf
            subst hf
            simp only
            have hb1 := parse4_bounds _ _ hpd
            have hb2 := parse4_bounds _ _ hpa
            have e1 := convert_to_utc_ok _ _ _ _ hdep
            have e2 := convert_to_utc_ok _ _ _ _ harr
            subst e1; subst e2
            apply fixMidnight_ge
            simp only [instant, toUTCArrow]
            omega
  · intro d hd
    unfold process_diversions at hd
    rw [List.mem_filterMap] at hd
    obtain ⟨i, _, hbind⟩ := hd
    rw [Option.bind_eq_some] at hbind
    obtain ⟨slot, _, hps⟩ := hbind
    exact processSlot_ge tbl row.FlightDate slot d hps

/-- Witness for `flight_arrival_ge_departure` at a concrete row whose
scheduled arrival and whose diversion arrival both cross midnight. -/
theorem flight_arrival_ge_departure_witness :
    instant flW.departure_time ≤ instant flW.arrival_time ∧
    instant divW.departure_time ≤ instant divW.arrival_time :=
  ⟨(flight_arrival_ge_departure tblW rowW).1 flW (by decide),
   (flight_arrival_ge_departure tblW rowW).2 divW (by decide)⟩

end WeatherFlight
